import Mathlib

/-!
Verification of the pocketbase-mcp response serializer and error-shaping layer.

The definitions below are a shallow embedding of the TypeScript source:
  - src/formatters/toml.ts   (formatToToml, convertToTomlCompatible)
  - src/formatters/json.ts   (formatToJson)
  - src/formatters/index.ts  (format)
  - src/services/pocketbase.ts (createErrorResponse, handlePocketBaseError,
    requireAdminAuth, isErrorResponse)
  - src/tools/records.ts, src/tools/collections.ts, src/tools/auth.ts
    (tool handler success and failure paths)
  - src/constants.ts         (MAX_RESPONSE_SIZE, error codes)

JavaScript values reaching the serializer are modelled by the inductive
type Js; the absent/undefined case is a distinct constructor from null,
mirroring the JavaScript distinction the source relies on.
-/

namespace PocketBaseMcp

/-- Model of a JavaScript value as it reaches the formatting layer:
null, undefined, booleans, numbers, strings, Date objects (carrying their
ISO-8601 rendering), arrays and plain objects with ordered string keys. -/
inductive Js where
  | null : Js
  | undef : Js
  | bool : Bool → Js
  | num : Int → Js
  | str : String → Js
  | date : String → Js
  | arr : List Js → Js
  | obj : List (String × Js) → Js

/-- In JavaScript, typeof yields the string "object" exactly for null,
Date objects, arrays and plain objects among our value domain. -/
def typeofIsObject : Js → Bool
  | .null => true
  | .date _ => true
  | .arr _ => true
  | .obj _ => true
  | _ => false

/-- True exactly for the undefined (absent) case. -/
def isUndef : Js → Bool
  | .undef => true
  | _ => false

/-- True exactly for the null value (the JavaScript strict equality test
data === null). -/
def isNullJs : Js → Bool
  | .null => true
  | _ => false

mutual

/-- Translation of convertToTomlCompatible from src/formatters/toml.ts:
null and undefined become the empty string, Date objects become their
ISO string, arrays and objects recurse, with undefined-valued keys of
objects skipped; all other scalars pass through unchanged. -/
def convertToTomlCompatible : Js → Js
  | .null => .str ""
  | .undef => .str ""
  | .date iso => .str iso
  | .arr xs => .arr (convertList xs)
  | .obj fs => .obj (convertFields fs)
  | .bool b => .bool b
  | .num n => .num n
  | .str s => .str s
termination_by structural x => x

/-- Elementwise conversion of an array (data.map in the source). -/
def convertList : List Js → List Js
  | [] => []
  | x :: xs => convertToTomlCompatible x :: convertList xs
termination_by structural x => x

/-- Entrywise conversion of an object: keys whose value is undefined are
skipped entirely, all others are converted recursively. -/
def convertFields : List (String × Js) → List (String × Js)
  | [] => []
  | (k, v) :: rest =>
    if isUndef v then convertFields rest
    else (k, convertToTomlCompatible v) :: convertFields rest
termination_by structural x => x

end

/-! ### Model of the external TOML encoder

The repository delegates the actual TOML rendering to the external
iarna-toml library, whose code is not part of this repository.
The functions below are therefore a model of that collaborator.
-/

/-- Characters allowed in a bare TOML key. -/
def bareKeyChar (c : Char) : Bool :=
  c.isAlphanum || c = '_' || c = '-'

/-- String concatenation of a list of fragments. -/
def strConcat : List String → String
  | [] => ""
  | x :: xs => x ++ strConcat xs

/-- Escaping of one character inside a basic TOML/JSON string. -/
def escChar (c : Char) : String :=
  if c = '"' then "\\\""
  else if c = '\\' then "\\\\"
  else String.singleton c

/-- Rendering of a basic double-quoted string literal. -/
def quoteStr (s : String) : String :=
  "\"" ++ strConcat (s.toList.map escChar) ++ "\""

/-- Rendering of a TOML key: bare when every character allows it,
quoted otherwise. -/
def stringifyKey (k : String) : String :=
  if k ≠ "" && k.toList.all bareKeyChar then k else quoteStr k

/-- Values skipped at emission time by the encoder (TOML has no null). -/
def isSkipped : Js → Bool
  | .null => true
  | .undef => true
  | _ => false

/-- True for object (table) values. -/
def isTableVal : Js → Bool
  | .obj _ => true
  | _ => false

/-- An array rendered as repeated table blocks: nonempty with a table
as first element. -/
def isTableArr : Js → Bool
  | .arr (x :: _) => isTableVal x
  | _ => false

/-- Values that cannot be rendered inline on a key = value line:
nonempty tables and arrays of tables. -/
def isComplex (v : Js) : Bool :=
  (match v with | .obj (_ :: _) => true | _ => false) || isTableArr v

/-- Joining of line fragments where every line is newline-terminated. -/
def unlines : List String → String
  | [] => ""
  | [l] => l ++ "\n"
  | l :: ls => l ++ "\n" ++ unlines ls

/-- Dotted key path for a nested section header. -/
def dotKey (path k : String) : String :=
  if path = "" then stringifyKey k else path ++ "." ++ stringifyKey k

mutual

/-- Modelled from the spec: inline rendering of a scalar or inline-array
value in the compact encoding. Booleans and integers render bare,
strings and timestamps render as quoted literals, inline arrays render
between brackets with null-like entries filtered out, and an empty
table renders as an empty inline table. -/
def tomlValueInline : Js → String
  | .bool b => cond b "true" "false"
  | .num n => toString n
  | .str s => quoteStr s
  | .date iso => quoteStr iso
  | .arr xs => "[" ++ tomlArrayItems xs ++ "]"
  | .obj _ => "\x7b \x7d"
  | .null => ""
  | .undef => ""
termination_by structural x => x

/-- Comma-joined inline renderings of array elements, with null and
undefined elements filtered out. -/
def tomlArrayItems : List Js → String
  | [] => ""
  | x :: xs =>
    if isSkipped x then tomlArrayItems xs
    else
      match xs with
      | [] => tomlValueInline x
      | _ =>
        let rest := tomlArrayItems xs
        if rest = "" then tomlValueInline x
        else tomlValueInline x ++ ", " ++ rest
termination_by structural x => x

end

/-- Modelled from the spec: the key = value lines of one table, in key
order, skipping null and undefined values and postponing complex values. -/
def tomlInlineLines : List (String × Js) → List String
  | [] => []
  | (k, v) :: rest =>
    if isSkipped v || isComplex v then tomlInlineLines rest
    else (stringifyKey k ++ " = " ++ tomlValueInline v) :: tomlInlineLines rest
termination_by structural x => x

mutual

/-- Modelled from the spec: the sub-section and repeated-table blocks of
one table, using dotted key-path headers. -/
def tomlComplexLines (path : String) : List (String × Js) → List String
  | [] => []
  | (k, v) :: rest =>
    (if isComplex v then tomlComplexEntry (dotKey path k) v else [])
      ++ tomlComplexLines path rest
termination_by structural fs => fs

/-- Rendering of a single complex entry: a nested table becomes a
section header followed by its lines, an array of tables becomes
repeated-table blocks. -/
def tomlComplexEntry (fullKey : String) : Js → List String
  | .obj gs =>
    ("[" ++ fullKey ++ "]") :: (tomlInlineLines gs ++ tomlComplexLines fullKey gs)
  | .arr xs => tomlArrBlocks fullKey xs
  | _ => []
termination_by structural x => x

/-- One repeated-table block per array element, in order. -/
def tomlArrBlocks (fullKey : String) : List Js → List String
  | [] => []
  | x :: xs =>
    (match x with
     | .obj gs =>
       ("[[" ++ fullKey ++ "]]")
         :: (tomlInlineLines gs ++ tomlComplexLines fullKey gs)
     | _ => []) ++ tomlArrBlocks fullKey xs
termination_by structural x => x

end

/-- All lines of one table: inline entries first, then complex blocks. -/
def tomlTableLines (path : String) (fs : List (String × Js)) : List String :=
  tomlInlineLines fs ++ tomlComplexLines path fs

/-- Full compact rendering of a top-level table. -/
def tomlStringifyFields (fs : List (String × Js)) : String :=
  unlines (tomlTableLines "" fs)

/-- JavaScript Object.keys view of an array: entries indexed by the
decimal rendering of their position. -/
def enumFields (i : Nat) : List Js → List (String × Js)
  | [] => []
  | x :: xs => (toString i, x) :: enumFields (i + 1) xs

/-- Modelled from the spec: the external TOML stringify entry point.
The compact encoding is mapping-rooted, so a top-level value that is
not an object raises an error; an array root is treated as an object
with decimal index keys, which is how a generic object iteration sees
it. A Date root serializes itself to its ISO string first and is then
rejected as a string root. -/
def TOML_stringify : Js → Except String String
  | .obj fs => .ok (tomlStringifyFields fs)
  | .arr xs => .ok (tomlStringifyFields (enumFields 0 xs))
  | .date _ => .error "Can only stringify objects, not string"
  | .null => .error "Can only stringify objects, not null"
  | .undef => .error "Can only stringify objects, not undefined"
  | .bool _ => .error "Can only stringify objects, not boolean"
  | .num _ => .error "Can only stringify objects, not number"
  | .str _ => .error "Can only stringify objects, not string"

/-- Translation of formatToToml from src/formatters/toml.ts: a top-level
value whose runtime type is not object (or which is null) is wrapped as
a one-entry object under the key value before encoding; every other
value is converted to TOML-compatible form and encoded directly. -/
def formatToToml (data : Js) : Except String String :=
  if !typeofIsObject data || isNullJs data then
    TOML_stringify (.obj [("value", data)])
  else
    TOML_stringify (convertToTomlCompatible data)

/-! ### Structured (JSON) formatter -/

/-- Indentation of n spaces. -/
def indentStr (n : Nat) : String :=
  String.mk (List.replicate n ' ')

mutual

/-- Modelled from the spec: the structured pretty-printer used by
formatToJson from src/formatters/json.ts, a standard recursive
renderer with two-space indentation. An undefined root renders as the
empty string. -/
def jsonValue (ind : Nat) : Js → String
  | .null => "null"
  | .undef => ""
  | .bool b => cond b "true" "false"
  | .num n => toString n
  | .str s => quoteStr s
  | .date iso => quoteStr iso
  | .arr [] => "[]"
  | .arr xs =>
    "[\n" ++ jsonItems (ind + 2) xs ++ "\n" ++ indentStr ind ++ "]"
  | .obj [] => "\x7b\x7d"
  | .obj fs =>
    "\x7b\n" ++ jsonFields (ind + 2) fs ++ "\n" ++ indentStr ind ++ "\x7d"
termination_by structural x => x

/-- Array elements, one per line; undefined elements render as null. -/
def jsonItems (ind : Nat) : List Js → String
  | [] => ""
  | x :: xs =>
    let line := indentStr ind ++ (if isUndef x then "null" else jsonValue ind x)
    match xs with
    | [] => line
    | _ => line ++ ",\n" ++ jsonItems ind xs
termination_by structural x => x

/-- Object entries, one per line; undefined-valued keys are dropped. -/
def jsonFields (ind : Nat) : List (String × Js) → String
  | [] => ""
  | (k, v) :: rest =>
    if isUndef v then jsonFields ind rest
    else
      let line := indentStr ind ++ quoteStr k ++ ": " ++ jsonValue ind v
      let tail := jsonFields ind rest
      if tail = "" then line else line ++ ",\n" ++ tail
termination_by structural x => x

end

/-- Translation of formatToJson from src/formatters/json.ts: the
standard recursive pretty-printer with two-space indentation. -/
def formatToJson (data : Js) : String :=
  jsonValue 0 data

/-- The two output formats of src/types.ts. -/
inductive OutputFormat where
  | toml : OutputFormat
  | json : OutputFormat

/-- Translation of format from src/formatters/index.ts: json selects the
structured formatter, toml (the default) selects the compact formatter. -/
def format (data : Js) : OutputFormat → Except String String
  | .json => .ok (formatToJson data)
  | .toml => formatToToml data

/-- Rendering of an object-rooted value, the shape every tool handler
serializes. On such values both formatters always succeed. -/
def formatObj (fs : List (String × Js)) : OutputFormat → String
  | .json => formatToJson (.obj fs)
  | .toml => tomlStringifyFields (convertFields fs)

/-- On object-rooted values the format router always succeeds and agrees
with formatObj. -/
theorem format_obj_ok (fs : List (String × Js)) (fmt : OutputFormat) :
    format (.obj fs) fmt = .ok (formatObj fs fmt) := by
  cases fmt <;> rfl

/-! ### Constants (src/constants.ts) -/

/-- Maximum response size in characters before truncation. -/
def MAX_RESPONSE_SIZE : Nat := 25000

/-! ### Error shaping layer (src/services/pocketbase.ts) -/

/-- The error member of a structured error response: code, message,
optional suggestion and optional field-specific validation errors. -/
structure ErrorBody where
  code : String
  message : String
  suggestion : Option String
  fieldErrors : Option (List (String × String))
deriving Repr, DecidableEq

/-- Translation of the ErrorResponse shape of src/types.ts: an object
with a single error member. -/
structure ErrorResponse where
  error : ErrorBody
deriving Repr, DecidableEq

/-- Translation of createErrorResponse: builds the envelope, attaching
the suggestion only when it is present and truthy (JavaScript drops an
empty-string suggestion because the spread guard treats it as falsy)
and the field errors only when present. -/
def createErrorResponse (code message : String) (suggestion : Option String)
    (fieldErrors : Option (List (String × String))) : ErrorResponse :=
  { error :=
    { code := code
      message := message
      suggestion := if suggestion = some "" then none else suggestion
      fieldErrors := fieldErrors } }

/-- A single field error entry of a PocketBase error body, carrying a
message. -/
structure FieldErr where
  message : String
deriving Repr, DecidableEq

/-- Model of the failure values that can reach handlePocketBaseError:
a TypeError thrown by fetch, a ClientResponseError from the PocketBase
SDK (status, optional body message, optional per-field error data), an
already-shaped ErrorResponse thrown by this same layer, a generic Error
with a message, or a raw non-Error value coerced to a string. -/
inductive RawFailure where
  | typeError : String → RawFailure
  | clientResponseError : Int → Option String → Option (List (String × FieldErr)) → RawFailure
  | errorResponse : ErrorResponse → RawFailure
  | genericError : String → RawFailure
  | rawValue : String → RawFailure

/-- Test that the first character list starts the second. -/
def charsStart : List Char → List Char → Bool
  | [], _ => true
  | _ :: _, [] => false
  | p :: ps, c :: cs => p == c && charsStart ps cs

/-- Test that the first character list occurs inside the second. -/
def charsInside (pat : List Char) : List Char → Bool
  | [] => charsStart pat []
  | c :: cs => charsStart pat (c :: cs) || charsInside pat cs

/-- JavaScript substring test message.includes(sub), as a Boolean on the
underlying character lists. -/
def strIncludes (sub s : String) : Bool :=
  charsInside sub.toList s.toList

/-- JavaScript m || d on an optional string: the default is used when the
value is absent or empty (falsy). -/
def orDefault (m : Option String) (d : String) : String :=
  match m with
  | some s => if s = "" then d else s
  | none => d

/-- Translation of handlePocketBaseError from src/services/pocketbase.ts.
The first argument is the configured backend address (the POCKETBASE_URL
environment variable read at the failure site). -/
def handlePocketBaseError (url : String) : RawFailure → ErrorResponse
  | .typeError msg =>
    if strIncludes "fetch" msg then
      createErrorResponse "CONNECTION_ERROR"
        ("Cannot connect to PocketBase server: " ++ url)
        (some "Check that PocketBase is running and POCKETBASE_URL is correct")
        none
    else
      createErrorResponse "SERVER_ERROR" msg
        (some "An unexpected error occurred") none
  | .clientResponseError status dataMessage dataData =>
    let formattedFieldErrors :=
      dataData.map (fun l => l.map (fun kv => (kv.1, kv.2.message)))
    if status = 400 then
      createErrorResponse "VALIDATION_ERROR"
        (orDefault dataMessage "Invalid request data")
        (some "Check the input parameters and try again")
        formattedFieldErrors
    else if status = 401 then
      createErrorResponse "AUTH_FAILED"
        "Authentication failed: Invalid credentials"
        (some "Check email and password, then try again") none
    else if status = 403 then
      createErrorResponse "PERMISSION_DENIED"
        (orDefault dataMessage "Permission denied")
        (some "You do not have permission to perform this operation. Check collection rules or authenticate with appropriate credentials.")
        none
    else if status = 404 then
      createErrorResponse "NOT_FOUND"
        (orDefault dataMessage "Resource not found")
        (some "Check that the collection and record ID are correct") none
    else if status = 429 then
      createErrorResponse "RATE_LIMITED"
        "Rate limit exceeded"
        (some "Wait a moment and try again") none
    else
      createErrorResponse "SERVER_ERROR"
        (orDefault dataMessage ("Server error (" ++ toString status ++ ")"))
        (some "Check PocketBase server logs for details") none
  | .errorResponse e => e
  | .genericError msg =>
    createErrorResponse "SERVER_ERROR" msg
      (some "An unexpected error occurred") none
  | .rawValue s =>
    createErrorResponse "SERVER_ERROR" s
      (some "An unexpected error occurred") none

/-- The envelope produced by requireAdminAuth when admin authentication
is absent. -/
def adminAuthRequiredEnvelope : ErrorResponse :=
  createErrorResponse "AUTH_REQUIRED"
    "Admin authentication required for this operation"
    (some "Use pocketbase_auth_admin tool to authenticate as admin first")
    none

/-- Translation of requireAdminAuth: succeeds when the auth store holds
an admin credential and otherwise throws the AUTH_REQUIRED envelope. -/
def requireAdminAuth (isAdmin : Bool) : Except ErrorResponse Unit :=
  if isAdmin then .ok () else .error adminAuthRequiredEnvelope

/-- The wire shape of an error envelope: an object with a single error
key whose value holds code, message and the optional members, absent
optional members being dropped. -/
def errorResponseJs (e : ErrorResponse) : List (String × Js) :=
  [("error", .obj
    ([("code", .str e.error.code), ("message", .str e.error.message)]
      ++ (match e.error.suggestion with
          | some s => [("suggestion", .str s)]
          | none => [])
      ++ (match e.error.fieldErrors with
          | some l => [("fieldErrors", .obj (l.map (fun kv => (kv.1, .str kv.2))))]
          | none => [])))]

/-! ### Spec-side error taxonomy (section 7 of the specification) -/

/-- The closed ErrorKind enumeration of the specification. -/
inductive ErrorKind where
  | ConnectionError | AuthRequired | AuthFailed | NotFound
  | ValidationError | PermissionDenied | RateLimited | ServerError
deriving Repr, DecidableEq

/-- The wire code carried by each ErrorKind. -/
def errorKindCode : ErrorKind → String
  | .ConnectionError => "CONNECTION_ERROR"
  | .AuthRequired => "AUTH_REQUIRED"
  | .AuthFailed => "AUTH_FAILED"
  | .NotFound => "NOT_FOUND"
  | .ValidationError => "VALIDATION_ERROR"
  | .PermissionDenied => "PERMISSION_DENIED"
  | .RateLimited => "RATE_LIMITED"
  | .ServerError => "SERVER_ERROR"

/-- The status-to-kind table of the specification, written from its
words: 400 to ValidationError, 401 to AuthFailed, 403 to
PermissionDenied, 404 to NotFound, 429 to RateLimited, every other
status to ServerError. -/
def specStatusKind (status : Int) : ErrorKind :=
  if status = 400 then .ValidationError
  else if status = 401 then .AuthFailed
  else if status = 403 then .PermissionDenied
  else if status = 404 then .NotFound
  else if status = 429 then .RateLimited
  else .ServerError

/-! ### Tool handlers (src/tools/records.ts, collections.ts, auth.ts)

Each handler is modelled on its two control-flow paths: the success
path builds an output object and serializes it, the catch path shapes
the thrown failure through handlePocketBaseError and serializes the
envelope with the error mark set. The backend round trip itself is the
external PocketBase SDK and enters the model as an Except outcome.
-/

/-- The rendered response a handler returns to the transport layer. -/
structure ToolResponse where
  text : String
  isError : Bool
deriving Repr, DecidableEq

/-- Common shape of every unguarded handler: serialize the built output
on success, shape and serialize the failure otherwise. -/
def simpleTool (url : String) (fmt : OutputFormat)
    (outcome : Except RawFailure (List (String × Js))) : ToolResponse :=
  match outcome with
  | .ok output => ⟨formatObj output fmt, false⟩
  | .error e => ⟨formatObj (errorResponseJs (handlePocketBaseError url e)) fmt, true⟩

/-- Common shape of every collection-management handler: the admin
guard runs first and its thrown envelope is caught by the same catch
clause; the backend outcome is consulted only when the guard passes. -/
def runGuardedTool (url : String) (isAdmin : Bool) (fmt : OutputFormat)
    (outcome : Except RawFailure (List (String × Js))) : ToolResponse :=
  match requireAdminAuth isAdmin with
  | .error e =>
    ⟨formatObj (errorResponseJs (handlePocketBaseError url (.errorResponse e))) fmt, true⟩
  | .ok _ => simpleTool url fmt outcome

/-! #### Record tools -/

/-- Backend result of pb.collection(c).getList, with each item already
spread into a plain object. -/
structure PbList where
  page : Int
  perPage : Int
  totalItems : Int
  totalPages : Int
  items : List (List (String × Js))

/-- Translation of the output object built by the list-records handler:
paging fields, the derived hasMore flag, the derived nextOffset present
exactly when more pages exist, then the items. -/
def buildListOutput (r : PbList) : List (String × Js) :=
  [("page", .num r.page), ("perPage", .num r.perPage),
   ("totalItems", .num r.totalItems), ("totalPages", .num r.totalPages),
   ("hasMore", .bool (decide (r.page < r.totalPages)))]
  ++ (if r.page < r.totalPages then [("nextOffset", .num (r.page * r.perPage))] else [])
  ++ [("items", .arr (r.items.map Js.obj))]

/-- The human-readable truncation notice. -/
def truncMessage (orig newLen : Nat) : String :=
  "Response truncated from " ++ toString orig ++ " to " ++ toString newLen
    ++ " items. Use pagination or filters to see more."

/-- The output object after the single truncation pass: the same
mapping with items sliced to the ceiling half and the two extra fields
appended. -/
def truncatedListOutput (r : PbList) : List (String × Js) :=
  let truncatedItems := r.items.take ((r.items.length + 1) / 2)
  buildListOutput { r with items := truncatedItems }
    ++ [("_truncated", .bool true),
        ("_message", .str (truncMessage r.items.length truncatedItems.length))]

/-- Success path of the list-records handler with the size limit as a
parameter: serialize once, and when the rendered length strictly
exceeds the limit, truncate once and re-serialize once. -/
def listRecordsText (limit : Nat) (r : PbList) (fmt : OutputFormat) : String :=
  let text := formatObj (buildListOutput r) fmt
  if text.length > limit then formatObj (truncatedListOutput r) fmt
  else text

/-- Translation of the pocketbase_list_records handler. -/
def pocketbase_list_records (url : String) (fmt : OutputFormat)
    (outcome : Except RawFailure PbList) : ToolResponse :=
  match outcome with
  | .ok r => ⟨listRecordsText MAX_RESPONSE_SIZE r fmt, false⟩
  | .error e => ⟨formatObj (errorResponseJs (handlePocketBaseError url e)) fmt, true⟩

/-- Translation of the pocketbase_get_record handler: the fetched record
is spread into a fresh object and serialized unconditionally. -/
def pocketbase_get_record (url : String) (fmt : OutputFormat)
    (outcome : Except RawFailure (List (String × Js))) : ToolResponse :=
  simpleTool url fmt outcome

/-- Translation of the pocketbase_create_record handler. -/
def pocketbase_create_record (url : String) (fmt : OutputFormat)
    (outcome : Except RawFailure (List (String × Js))) : ToolResponse :=
  simpleTool url fmt outcome

/-- Translation of the pocketbase_update_record handler. -/
def pocketbase_update_record (url : String) (fmt : OutputFormat)
    (outcome : Except RawFailure (List (String × Js))) : ToolResponse :=
  simpleTool url fmt outcome

/-- The fixed confirmation object of the delete-record handler. -/
def deleteRecordOutput (id : String) : List (String × Js) :=
  [("success", .bool true), ("deletedId", .str id),
   ("message", .str "Record deleted successfully")]

/-- Translation of the pocketbase_delete_record handler. -/
def pocketbase_delete_record (url : String) (fmt : OutputFormat) (id : String)
    (outcome : Except RawFailure Unit) : ToolResponse :=
  simpleTool url fmt (outcome.map fun _ => deleteRecordOutput id)

/-! #### Collection tools -/

/-- One field definition of a collection schema as the SDK returns it. -/
structure PbField where
  name : String
  type : String
  required : Option Bool
  options : Option (List (String × Js))

/-- One collection summary as pb.collections.getList returns it. -/
structure PbCollection where
  id : String
  name : String
  type : String
  system : Bool
  schema : Option (List PbField)

/-- Backend result of pb.collections.getList. -/
structure PbCollectionsList where
  page : Int
  perPage : Int
  totalItems : Int
  totalPages : Int
  items : List PbCollection

/-- Translation of the output object of the list-collections handler. -/
def buildListCollectionsOutput (r : PbCollectionsList) : List (String × Js) :=
  [("page", .num r.page), ("perPage", .num r.perPage),
   ("totalItems", .num r.totalItems), ("totalPages", .num r.totalPages),
   ("items", .arr (r.items.map fun c => .obj
    [("id", .str c.id), ("name", .str c.name), ("type", .str c.type),
     ("system", .bool c.system),
     ("fieldCount", .num (((c.schema.map List.length).getD 0 : Nat) : Int))]))]

/-- Translation of the pocketbase_list_collections handler. -/
def pocketbase_list_collections (url : String) (isAdmin : Bool) (fmt : OutputFormat)
    (backend : Except RawFailure PbCollectionsList) : ToolResponse :=
  runGuardedTool url isAdmin fmt (backend.map buildListCollectionsOutput)

/-- An API rule value: a string or null. -/
def jsOfRule : Option String → Js
  | some s => .str s
  | none => .null

/-- Full collection data as pb.collections.getOne returns it. -/
structure PbCollectionFull where
  id : String
  name : String
  type : String
  system : Bool
  created : String
  updated : String
  listRule : Option String
  viewRule : Option String
  createRule : Option String
  updateRule : Option String
  deleteRule : Option String
  indexes : Option (List String)
  schema : Option (List PbField)

/-- Translation of the output object of the get-collection handler. -/
def buildGetCollectionOutput (c : PbCollectionFull) : List (String × Js) :=
  [("id", .str c.id), ("name", .str c.name), ("type", .str c.type),
   ("system", .bool c.system), ("created", .str c.created),
   ("updated", .str c.updated),
   ("listRule", jsOfRule c.listRule), ("viewRule", jsOfRule c.viewRule),
   ("createRule", jsOfRule c.createRule), ("updateRule", jsOfRule c.updateRule),
   ("deleteRule", jsOfRule c.deleteRule),
   ("indexes", .arr ((c.indexes.getD []).map Js.str)),
   ("fields", .arr ((c.schema.getD []).map fun f => .obj
    [("name", .str f.name), ("type", .str f.type),
     ("required", .bool (f.required.getD false)),
     ("options", .obj (f.options.getD []))]))]

/-- Translation of the pocketbase_get_collection handler. -/
def pocketbase_get_collection (url : String) (isAdmin : Bool) (fmt : OutputFormat)
    (backend : Except RawFailure PbCollectionFull) : ToolResponse :=
  runGuardedTool url isAdmin fmt (backend.map buildGetCollectionOutput)

/-- Identity of a collection returned by a create or update call. -/
structure PbCollectionRef where
  id : String
  name : String
  type : String

/-- The confirmation object of the create-collection handler. -/
def createCollectionOutput (c : PbCollectionRef) : List (String × Js) :=
  [("success", .bool true), ("id", .str c.id), ("name", .str c.name),
   ("type", .str c.type),
   ("message", .str ("Collection \"" ++ c.name ++ "\" created successfully"))]

/-- Translation of the pocketbase_create_collection handler. -/
def pocketbase_create_collection (url : String) (isAdmin : Bool) (fmt : OutputFormat)
    (backend : Except RawFailure PbCollectionRef) : ToolResponse :=
  runGuardedTool url isAdmin fmt (backend.map createCollectionOutput)

/-- The confirmation object of the update-collection handler. -/
def updateCollectionOutput (c : PbCollectionRef) : List (String × Js) :=
  [("success", .bool true), ("id", .str c.id), ("name", .str c.name),
   ("type", .str c.type),
   ("message", .str ("Collection \"" ++ c.name ++ "\" updated successfully"))]

/-- Translation of the pocketbase_update_collection handler. -/
def pocketbase_update_collection (url : String) (isAdmin : Bool) (fmt : OutputFormat)
    (backend : Except RawFailure PbCollectionRef) : ToolResponse :=
  runGuardedTool url isAdmin fmt (backend.map updateCollectionOutput)

/-- The confirmation object of the delete-collection handler. -/
def deleteCollectionOutput (name : String) : List (String × Js) :=
  [("success", .bool true), ("deletedCollection", .str name),
   ("message", .str "Collection and all records deleted successfully")]

/-- Translation of the pocketbase_delete_collection handler. -/
def pocketbase_delete_collection (url : String) (isAdmin : Bool) (fmt : OutputFormat)
    (name : String) (backend : Except RawFailure Unit) : ToolResponse :=
  runGuardedTool url isAdmin fmt (backend.map fun _ => deleteCollectionOutput name)

/-! #### Authentication tools -/

/-- Translation of the success output of the admin-authentication
handler. -/
def authAdminOutput (id email : String) : List (String × Js) :=
  [("success", .bool true), ("authType", .str "admin"),
   ("admin", .obj [("id", .str id), ("email", .str email)]),
   ("tokenExpiry", .null)]

/-- Translation of the pocketbase_auth_admin handler. -/
def pocketbase_auth_admin (url : String) (fmt : OutputFormat)
    (outcome : Except RawFailure (String × String)) : ToolResponse :=
  simpleTool url fmt (outcome.map fun r => authAdminOutput r.1 r.2)

/-- The user record fields surfaced by the user-authentication handler. -/
structure PbAuthUser where
  id : String
  email : String
  verified : Bool
  created : String
  updated : String

/-- Translation of the success output of the user-authentication
handler. -/
def authUserOutput (collection : String) (u : PbAuthUser) : List (String × Js) :=
  [("success", .bool true), ("authType", .str "user"),
   ("collection", .str collection),
   ("user", .obj
    [("id", .str u.id), ("email", .str u.email),
     ("verified", .bool u.verified), ("created", .str u.created),
     ("updated", .str u.updated)]),
   ("tokenExpiry", .null)]

/-- Translation of the pocketbase_auth_user handler. -/
def pocketbase_auth_user (url : String) (fmt : OutputFormat) (collection : String)
    (outcome : Except RawFailure PbAuthUser) : ToolResponse :=
  simpleTool url fmt (outcome.map (authUserOutput collection))

/-- The authentication state object of getAuthState. -/
structure AuthState where
  isAuthenticated : Bool
  authType : Option String
  model : Option (List (String × Js))
  tokenValid : Bool

/-- Wire shape of the authentication state. -/
def authStateJs (s : AuthState) : List (String × Js) :=
  [("isAuthenticated", .bool s.isAuthenticated),
   ("authType", match s.authType with | some t => .str t | none => .null),
   ("model", match s.model with | some m => .obj m | none => .null),
   ("tokenValid", .bool s.tokenValid),
   ("tokenExpiry", .null)]

/-- Translation of the pocketbase_get_auth_status handler. -/
def pocketbase_get_auth_status (url : String) (fmt : OutputFormat)
    (outcome : Except RawFailure AuthState) : ToolResponse :=
  simpleTool url fmt (outcome.map authStateJs)

/-- The fixed confirmation object of the logout handler. -/
def logoutOutput : List (String × Js) :=
  [("success", .bool true), ("message", .str "Successfully logged out")]

/-- Translation of the pocketbase_logout handler. -/
def pocketbase_logout (url : String) (fmt : OutputFormat)
    (outcome : Except RawFailure Unit) : ToolResponse :=
  simpleTool url fmt (outcome.map fun _ => logoutOutput)

/-! ### Helper lemmas -/

/-- Lookup of a key among the entries of an object, first match wins
(JavaScript object keys are unique, the list order is insertion order). -/
def fieldLookup (k : String) : List (String × Js) → Option Js
  | [] => none
  | (k2, v) :: rest => if k = k2 then some v else fieldLookup k rest

theorem fieldLookup_append (k : String) (l1 l2 : List (String × Js)) :
    fieldLookup k (l1 ++ l2)
      = match fieldLookup k l1 with
        | some v => some v
        | none => fieldLookup k l2 := by
  induction l1 with
  | nil => simp [fieldLookup]
  | cons hd tl ih =>
    obtain ⟨k2, v⟩ := hd
    by_cases h : k = k2 <;> simp [fieldLookup, h, ih]

theorem fieldLookup_convertFields_of_notMem (k : String)
    (l : List (String × Js)) (h : k ∉ l.map Prod.fst) :
    fieldLookup k (convertFields l) = none := by
  induction l with
  | nil => simp [convertFields, fieldLookup]
  | cons hd tl ih =>
    obtain ⟨k2, v⟩ := hd
    simp only [List.map_cons, List.mem_cons, not_or] at h
    rw [convertFields]
    by_cases hu : isUndef v = true
    · simp only [hu, if_true]
      exact ih h.2
    · simp only [hu, if_false, fieldLookup, if_neg h.1]
      exact ih h.2

/-! ### Theorems about the claims -/

/-- C3: a failure value that already is a shaped ErrorResponse passes
through the failure classifier completely unchanged, so envelopes are
never wrapped in envelopes. -/
theorem errorEnvelope_passthrough (url : String) (e : ErrorResponse) :
    handlePocketBaseError url (.errorResponse e) = e := rfl

/-- C2: a backend failure carrying an HTTP status code is classified to
exactly the ErrorKind of the fixed specification table (400 validation,
401 auth failed, 403 permission denied, 404 not found, 429 rate
limited, anything else server error), and the per-field messages of the
error body are copied into fieldErrors exactly in the 400 case. -/
theorem status_classification (url : String) (status : Int)
    (dataMessage : Option String) (dataData : Option (List (String × FieldErr))) :
    (handlePocketBaseError url
      (.clientResponseError status dataMessage dataData)).error.code
      = errorKindCode (specStatusKind status)
    ∧ (handlePocketBaseError url
        (.clientResponseError status dataMessage dataData)).error.fieldErrors
      = (if status = 400
         then dataData.map (fun l => l.map (fun kv => (kv.1, kv.2.message)))
         else none) := by
  constructor <;>
  · simp only [handlePocketBaseError, specStatusKind, createErrorResponse]
    split_ifs <;> simp [errorKindCode]

/-- C7: a network-level connectivity failure (a fetch TypeError) is
classified as a connection error whose message names the configured
backend address and whose suggestion asks to verify the address and
that the backend is running. -/
theorem connection_error_classification (url msg : String)
    (h : strIncludes "fetch" msg = true) :
    handlePocketBaseError url (.typeError msg)
      = { error :=
          { code := "CONNECTION_ERROR"
            message := "Cannot connect to PocketBase server: " ++ url
            suggestion := some "Check that PocketBase is running and POCKETBASE_URL is correct"
            fieldErrors := none } }
    ∧ ∃ pre, (handlePocketBaseError url (.typeError msg)).error.message
        = pre ++ url := by
  refine ⟨?_, "Cannot connect to PocketBase server: ", ?_⟩ <;>
    simp [handlePocketBaseError, h, createErrorResponse]

/-- Witness for the connection-error classification at the scenario of
the specification: backend address http://x:8090 and a fetch failure. -/
theorem connection_error_classification_witness :
    handlePocketBaseError "http://x:8090" (.typeError "fetch failed")
      = { error :=
          { code := "CONNECTION_ERROR"
            message := "Cannot connect to PocketBase server: http://x:8090"
            suggestion := some "Check that PocketBase is running and POCKETBASE_URL is correct"
            fieldErrors := none } } :=
  (connection_error_classification "http://x:8090" "fetch failed" (by decide)).1

/-- C8: every collection-management tool invoked without admin
authentication short-circuits before the backend is consulted (the
response does not depend on the backend outcome at all) and returns the
fixed AUTH_REQUIRED envelope, marked as an error response, whose
suggestion names the admin-authentication tool. -/
theorem admin_guard_short_circuit (url : String) (fmt : OutputFormat)
    (backend : Except RawFailure (List (String × Js))) :
    runGuardedTool url false fmt backend
      = ⟨formatObj (errorResponseJs adminAuthRequiredEnvelope) fmt, true⟩
    ∧ (∀ other : Except RawFailure (List (String × Js)),
        runGuardedTool url false fmt backend = runGuardedTool url false fmt other)
    ∧ adminAuthRequiredEnvelope.error.code = "AUTH_REQUIRED"
    ∧ adminAuthRequiredEnvelope.error.message
      = "Admin authentication required for this operation"
    ∧ adminAuthRequiredEnvelope.error.suggestion
      = some "Use pocketbase_auth_admin tool to authenticate as admin first"
    ∧ (runGuardedTool url false fmt backend).isError = true
    ∧ (∀ b, pocketbase_list_collections url false fmt b
        = ⟨formatObj (errorResponseJs adminAuthRequiredEnvelope) fmt, true⟩)
    ∧ (∀ b, pocketbase_get_collection url false fmt b
        = ⟨formatObj (errorResponseJs adminAuthRequiredEnvelope) fmt, true⟩)
    ∧ (∀ b, pocketbase_create_collection url false fmt b
        = ⟨formatObj (errorResponseJs adminAuthRequiredEnvelope) fmt, true⟩)
    ∧ (∀ b, pocketbase_update_collection url false fmt b
        = ⟨formatObj (errorResponseJs adminAuthRequiredEnvelope) fmt, true⟩)
    ∧ (∀ name b, pocketbase_delete_collection url false fmt name b
        = ⟨formatObj (errorResponseJs adminAuthRequiredEnvelope) fmt, true⟩) := by
  exact ⟨rfl, fun _ => rfl, rfl, rfl, rfl, rfl, fun _ => rfl, fun _ => rfl,
    fun _ => rfl, fun _ => rfl, fun _ _ => rfl⟩

/-- C4 counterexample: a top-level Sequence is object-typed in
JavaScript, so the compact serializer does not wrap it under the value
key; its output is the index-keyed rendering of the array and contains
no value entry at all. -/
theorem sequence_root_not_wrapped :
    formatToToml (.arr [.num 1, .num 2]) = .ok "0 = 1\n1 = 2\n"
    ∧ strIncludes "value" "0 = 1\n1 = 2\n" = false := by
  exact ⟨rfl, by decide⟩

/-- C4 amended: the compact serializer wraps a top-level value under the
fixed key value exactly when its runtime type is not object (Bool,
Number and String scalars, plus Null, which the wrap test also
catches); for such scalars the output carries a top-level value entry.
A wrapped Null is then dropped by the mapping-rooted encoder, giving
empty output, while Sequences and Timestamps are object-typed and reach
the encoder unwrapped. -/
theorem value_wrapping_rule :
    (∀ s : String, formatToToml (.str s)
      = .ok ((stringifyKey "value" ++ " = " ++ quoteStr s) ++ "\n"))
    ∧ (∀ n : Int, formatToToml (.num n)
      = .ok ((stringifyKey "value" ++ " = " ++ toString n) ++ "\n"))
    ∧ (∀ b : Bool, formatToToml (.bool b)
      = .ok ((stringifyKey "value" ++ " = " ++ cond b "true" "false") ++ "\n"))
    ∧ formatToToml .null = TOML_stringify (.obj [("value", .null)])
    ∧ formatToToml .null = .ok ""
    ∧ (∀ xs : List Js, formatToToml (.arr xs)
      = TOML_stringify (convertToTomlCompatible (.arr xs)))
    ∧ (∀ iso : String, formatToToml (.date iso)
      = TOML_stringify (convertToTomlCompatible (.date iso))) := by
  exact ⟨fun _ => rfl, fun _ => rfl, fun _ => rfl, rfl, rfl,
    fun _ => rfl, fun _ => rfl⟩

/-- C5: in compact serialization an absent (undefined) field is dropped
entirely while a Null field is emitted with an empty-string literal
value. The first two parts state this for the key set of any object
with unique keys; the remaining parts exhibit it at the output-string
level for a one-entry mapping and show the two outputs always differ. -/
theorem absent_vs_null_fields (fs : List (String × Js)) (k : String)
    (hkeys : (fs.map Prod.fst).Nodup) :
    ((k, Js.undef) ∈ fs → fieldLookup k (convertFields fs) = none)
    ∧ ((k, Js.null) ∈ fs → fieldLookup k (convertFields fs) = some (.str ""))
    ∧ formatToToml (.obj [(k, .undef)]) = .ok ""
    ∧ formatToToml (.obj [(k, .null)])
      = .ok ((stringifyKey k ++ " = " ++ "\"\"") ++ "\n")
    ∧ ((stringifyKey k ++ " = " ++ "\"\"") ++ "\n") ≠ "" := by
  refine ⟨?_, ?_, rfl, rfl, ?_⟩
  · induction fs with
    | nil => intro hmem; simp at hmem
    | cons hd tl ih =>
      obtain ⟨k2, v⟩ := hd
      simp only [List.map_cons, List.nodup_cons] at hkeys
      intro hmem
      rcases List.mem_cons.mp hmem with heq | htl
      · obtain ⟨hk, hv⟩ := Prod.mk.injEq .. ▸ heq
        subst hk hv
        rw [convertFields]
        simp only [isUndef, if_true]
        exact fieldLookup_convertFields_of_notMem _ _ hkeys.1
      · rw [convertFields]
        by_cases hu : isUndef v = true
        · simp only [hu, if_true]
          exact ih hkeys.2 htl
        · simp only [hu, if_false, fieldLookup]
          have hkne : ¬ k = k2 := by
            intro hk
            subst hk
            exact hkeys.1 (List.mem_map.mpr ⟨(k, Js.undef), htl, rfl⟩)
          rw [if_neg hkne]
          exact ih hkeys.2 htl
  · induction fs with
    | nil => intro hmem; simp at hmem
    | cons hd tl ih =>
      obtain ⟨k2, v⟩ := hd
      simp only [List.map_cons, List.nodup_cons] at hkeys
      intro hmem
      rcases List.mem_cons.mp hmem with heq | htl
      · obtain ⟨hk, hv⟩ := Prod.mk.injEq .. ▸ heq
        subst hk hv
        rw [convertFields]
        simp only [isUndef, if_false, fieldLookup, if_pos rfl]
        rfl
      · rw [convertFields]
        by_cases hu : isUndef v = true
        · simp only [hu, if_true]
          exact ih hkeys.2 htl
        · simp only [hu, if_false, fieldLookup]
          have hkne : ¬ k = k2 := by
            intro hk
            subst hk
            exact hkeys.1 (List.mem_map.mpr ⟨(k, Js.null), htl, rfl⟩)
          rw [if_neg hkne]
          exact ih hkeys.2 htl
  · intro hcontra
    have hlen := congrArg String.length hcontra
    simp only [String.length_append] at hlen
    have h1 : (" = " : String).length = 3 := rfl
    have h2 : ("\"\"" : String).length = 2 := rfl
    have h3 : ("\n" : String).length = 1 := rfl
    have h0 : ("" : String).length = 0 := rfl
    omega

/-- Witness for the absent-versus-null serialization at a concrete
two-field mapping. -/
theorem absent_vs_null_fields_witness :
    ((("a", Js.undef) ∈ [("a", Js.undef), ("b", Js.null)] →
      fieldLookup "a" (convertFields [("a", Js.undef), ("b", Js.null)]) = none)
    ∧ ((("a", Js.null) ∈ [("a", Js.undef), ("b", Js.null)]) →
      fieldLookup "a" (convertFields [("a", Js.undef), ("b", Js.null)]) = some (.str ""))
    ∧ formatToToml (.obj [("a", .undef)]) = .ok ""
    ∧ formatToToml (.obj [("a", .null)])
      = .ok ((stringifyKey "a" ++ " = " ++ "\"\"") ++ "\n")
    ∧ ((stringifyKey "a" ++ " = " ++ "\"\"") ++ "\n") ≠ "") :=
  absent_vs_null_fields [("a", Js.undef), ("b", Js.null)] "a" (by decide)

/-- C6 counterexample: the compact serializer is not total; a top-level
Timestamp is object-typed, so it escapes the wrap guard, is converted
to a bare ISO string root, and the mapping-rooted encoder then rejects
it. -/
theorem serialize_raises_on_timestamp_root :
    format (.date "2026-01-15T10:30:00.000Z") .toml
      = .error "Can only stringify objects, not string" := rfl

/-- True exactly for a top-level Timestamp value. -/
def isDateRoot : Js → Bool
  | .date _ => true
  | _ => false

/-- C6 amended: serialize is total and returns a string for every
acyclic value and both formats, with the single exception of a
top-level Timestamp in the compact format, which the encoder rejects. -/
theorem serialize_total_except_timestamp_root (v : Js) (fmt : OutputFormat)
    (h : fmt = OutputFormat.toml → isDateRoot v = false) :
    ∃ s, format v fmt = .ok s := by
  cases fmt with
  | json => exact ⟨formatToJson v, rfl⟩
  | toml =>
    cases v with
    | date iso => simp [isDateRoot] at h
    | null => exact ⟨_, rfl⟩
    | undef => exact ⟨_, rfl⟩
    | bool b => exact ⟨_, rfl⟩
    | num n => exact ⟨_, rfl⟩
    | str s => exact ⟨_, rfl⟩
    | arr xs => exact ⟨_, rfl⟩
    | obj fs => exact ⟨_, rfl⟩

/-- Witness for serializer totality at a concrete scalar in the compact
format. -/
theorem serialize_total_except_timestamp_root_witness :
    ∃ s, format (.str "hi") OutputFormat.toml = .ok s :=
  serialize_total_except_timestamp_root (.str "hi") OutputFormat.toml
    (fun _ => rfl)

/-- C9: the list-records output mapping carries hasMore equal to the
comparison page below totalPages, and nextOffset present exactly when
more pages exist, then equal to page times perPage; the scenario of the
specification renders with page, totalItems, hasMore and nextOffset
entries and one repeated-table block per item. -/
theorem paged_result_derived_fields (r : PbList) :
    fieldLookup "hasMore" (buildListOutput r)
      = some (.bool (decide (r.page < r.totalPages)))
    ∧ fieldLookup "nextOffset" (buildListOutput r)
      = (if r.page < r.totalPages then some (.num (r.page * r.perPage)) else none)
    ∧ fieldLookup "items" (buildListOutput r) = some (.arr (r.items.map Js.obj))
    ∧ formatObj (buildListOutput ⟨1, 2, 5, 3, [[("id", .str "a")], [("id", .str "b")]]⟩) .toml
      = "page = 1\nperPage = 2\ntotalItems = 5\ntotalPages = 3\nhasMore = true\nnextOffset = 2\n[[items]]\nid = \"a\"\n[[items]]\nid = \"b\"\n" := by
  refine ⟨?_, ?_, ?_, rfl⟩ <;>
    by_cases h : r.page < r.totalPages <;>
      simp [buildListOutput, fieldLookup, h]

/-- C1: the list-records success path serializes once, truncates exactly
when the rendered length strictly exceeds the limit and then exactly
once (halving the items with ceiling, attaching the boolean flag and
the counts message, re-serializing once, and returning the result even
if still oversized), and output at or under the limit is returned
untouched. -/
theorem list_truncation_policy (url : String) (limit : Nat) (r : PbList)
    (fmt : OutputFormat) :
    listRecordsText limit r fmt
      = (if (formatObj (buildListOutput r) fmt).length > limit
         then formatObj (truncatedListOutput r) fmt
         else formatObj (buildListOutput r) fmt)
    ∧ fieldLookup "items" (truncatedListOutput r)
      = some (.arr ((r.items.take ((r.items.length + 1) / 2)).map Js.obj))
    ∧ (r.items.take ((r.items.length + 1) / 2)).length = (r.items.length + 1) / 2
    ∧ fieldLookup "_truncated" (truncatedListOutput r) = some (.bool true)
    ∧ fieldLookup "_message" (truncatedListOutput r)
      = some (.str (truncMessage r.items.length ((r.items.length + 1) / 2)))
    ∧ pocketbase_list_records url fmt (.ok r)
      = ⟨listRecordsText MAX_RESPONSE_SIZE r fmt, false⟩
    ∧ MAX_RESPONSE_SIZE = 25000 := by
  have hitems : ∀ r' : PbList, fieldLookup "items" (buildListOutput r')
      = some (.arr (r'.items.map Js.obj)) := by
    intro r'
    by_cases h : r'.page < r'.totalPages <;>
      simp [buildListOutput, fieldLookup, h]
  have htrunc : ∀ r' : PbList, fieldLookup "_truncated" (buildListOutput r') = none := by
    intro r'
    by_cases h : r'.page < r'.totalPages <;>
      simp [buildListOutput, fieldLookup, h]
  have hmsg : ∀ r' : PbList, fieldLookup "_message" (buildListOutput r') = none := by
    intro r'
    by_cases h : r'.page < r'.totalPages <;>
      simp [buildListOutput, fieldLookup, h]
  have hlen : (r.items.take ((r.items.length + 1) / 2)).length
      = (r.items.length + 1) / 2 := by
    rw [List.length_take]
    omega
  refine ⟨rfl, ?_, hlen, ?_, ?_, rfl, rfl⟩
  · rw [truncatedListOutput, fieldLookup_append, hitems]
  · rw [truncatedListOutput, fieldLookup_append, htrunc]
    rfl
  · rw [truncatedListOutput, fieldLookup_append, hmsg, hlen]
    simp [fieldLookup]

/-- C10: every registered operation other than list-records returns its
serialized success output unconditionally, with no size test and with
no truncation fields attached: the response text equals the plain
serialization of the built output for all inputs, however long. -/
theorem size_limit_only_on_list_records (url : String) (fmt : OutputFormat) :
    (∀ record, pocketbase_get_record url fmt (.ok record)
      = ⟨formatObj record fmt, false⟩)
    ∧ (∀ record, pocketbase_create_record url fmt (.ok record)
      = ⟨formatObj record fmt, false⟩)
    ∧ (∀ record, pocketbase_update_record url fmt (.ok record)
      = ⟨formatObj record fmt, false⟩)
    ∧ (∀ id, pocketbase_delete_record url fmt id (.ok ())
      = ⟨formatObj (deleteRecordOutput id) fmt, false⟩)
    ∧ (∀ b, pocketbase_list_collections url true fmt (.ok b)
      = ⟨formatObj (buildListCollectionsOutput b) fmt, false⟩)
    ∧ (∀ c, pocketbase_get_collection url true fmt (.ok c)
      = ⟨formatObj (buildGetCollectionOutput c) fmt, false⟩)
    ∧ (∀ c, pocketbase_create_collection url true fmt (.ok c)
      = ⟨formatObj (createCollectionOutput c) fmt, false⟩)
    ∧ (∀ c, pocketbase_update_collection url true fmt (.ok c)
      = ⟨formatObj (updateCollectionOutput c) fmt, false⟩)
    ∧ (∀ name, pocketbase_delete_collection url true fmt name (.ok ())
      = ⟨formatObj (deleteCollectionOutput name) fmt, false⟩)
    ∧ (∀ a : String × String, pocketbase_auth_admin url fmt (.ok a)
      = ⟨formatObj (authAdminOutput a.1 a.2) fmt, false⟩)
    ∧ (∀ c u, pocketbase_auth_user url fmt c (.ok u)
      = ⟨formatObj (authUserOutput c u) fmt, false⟩)
    ∧ (∀ s, pocketbase_get_auth_status url fmt (.ok s)
      = ⟨formatObj (authStateJs s) fmt, false⟩)
    ∧ pocketbase_logout url fmt (.ok ())
      = ⟨formatObj logoutOutput fmt, false⟩ := by
  exact ⟨fun _ => rfl, fun _ => rfl, fun _ => rfl, fun _ => rfl, fun _ => rfl,
    fun _ => rfl, fun _ => rfl, fun _ => rfl, fun _ => rfl, fun _ => rfl,
    fun _ _ => rfl, fun _ => rfl, rfl⟩

end PocketBaseMcp
